import Mathlib

/-!
# tinyrt: surface negotiation and frame presentation

A shallow embedding of `src/tinyrt/tinyrt_main.cpp`.

The program is one sequential `main` that talks to GLFW and Vulkan.  The
embedding keeps the program's own decisions (loops, comparisons, asserts,
the arguments it passes) and takes everything the platform answers from a
`Platform` record.  A run is a log of the platform calls issued together with
the value computed, or no value when an `assert` stopped the process.

The embedding is of the build without `NDEBUG`: `assert` is active and
`enableValidationLayers` is `true`.
-/

namespace TinyRT

/-! ## Constants of `vulkan_core.h` used by the program -/

abbrev VkResult := Int

def VK_SUCCESS : VkResult := 0
def VK_INCOMPLETE : VkResult := 5
def VK_ERROR_OUT_OF_HOST_MEMORY : VkResult := -1

def VK_NULL_HANDLE : Nat := 0
def VK_FORMAT_R8G8B8A8_UNORM : Nat := 37
def VK_FORMAT_B8G8R8A8_SRGB : Nat := 50
def VK_COLOR_SPACE_SRGB_NONLINEAR_KHR : Nat := 0
def VK_COLOR_SPACE_EXTENDED_SRGB_LINEAR_EXT : Nat := 1000104002
def VK_PRESENT_MODE_MAILBOX_KHR : Nat := 1
def VK_PRESENT_MODE_FIFO_KHR : Nat := 2
def VK_PHYSICAL_DEVICE_TYPE_INTEGRATED_GPU : Nat := 1
def VK_PHYSICAL_DEVICE_TYPE_DISCRETE_GPU : Nat := 2
def VK_QUEUE_GRAPHICS_BIT : Nat := 1
def VK_QUEUE_COMPUTE_BIT : Nat := 2
def VK_QUEUE_TRANSFER_BIT : Nat := 4
def VK_PIPELINE_STAGE_COLOR_ATTACHMENT_OUTPUT_BIT : Nat := 1024
def VK_IMAGE_USAGE_COLOR_ATTACHMENT_BIT : Nat := 16
def VK_SHARING_MODE_EXCLUSIVE : Nat := 0
def VK_COMPOSITE_ALPHA_OPAQUE_BIT_KHR : Nat := 1
def VK_TRUE : Nat := 1

/-- Number of values of a `uint32_t`. -/
def UINT32_RANGE : Nat := 4294967296

/-! ## Data the program reads from the platform -/

structure VkSurfaceFormatKHR where
  format : Nat
  colorSpace : Nat
deriving DecidableEq, Repr

structure VkExtent2D where
  width : Nat
  height : Nat
deriving DecidableEq, Repr

structure VkSurfaceCapabilitiesKHR where
  minImageCount : Nat
  maxImageCount : Nat
  currentExtent : VkExtent2D
  minImageExtent : VkExtent2D
  maxImageExtent : VkExtent2D
  currentTransform : Nat
deriving DecidableEq, Repr

structure VkPhysicalDeviceProperties where
  deviceType : Nat
deriving DecidableEq, Repr

structure VkPhysicalDeviceFeatures where
  geometryShader : Nat
deriving DecidableEq, Repr

structure VkQueueFamilyProperties where
  queueFlags : Nat
deriving DecidableEq, Repr

structure VkSwapchainCreateInfoKHR where
  surface : Nat
  minImageCount : Nat
  imageFormat : Nat
  imageColorSpace : Nat
  imageExtent : VkExtent2D
  imageArrayLayers : Nat
  imageUsage : Nat
  imageSharingMode : Nat
  queueFamilyIndexCount : Nat
  preTransform : Nat
  compositeAlpha : Nat
  presentMode : Nat
  clipped : Nat
  oldSwapchain : Nat
deriving DecidableEq, Repr

/-! ## Surface negotiation (`main`, lines 201-250) -/

/-- The pair the format loop looks for. -/
def preferredFormat : VkSurfaceFormatKHR :=
  { format := VK_FORMAT_B8G8R8A8_SRGB, colorSpace := VK_COLOR_SPACE_SRGB_NONLINEAR_KHR }

/-- One iteration of the format loop (lines 212-214). -/
def formatStep (chosen f : VkSurfaceFormatKHR) : VkSurfaceFormatKHR :=
  if f.format = VK_FORMAT_B8G8R8A8_SRGB ∧ f.colorSpace = VK_COLOR_SPACE_SRGB_NONLINEAR_KHR then f
  else chosen

/-- Lines 210-215: `chosenFormat = formats[0]`, then the loop over all
`formatCount` entries.  The list holds the `formatCount` entries the platform
wrote; `none` stands for the read of `formats[0]` when nothing was written,
which the assert of line 203 excludes. -/
def chosenFormat : List VkSurfaceFormatKHR → Option VkSurfaceFormatKHR
  | [] => none
  | f0 :: rest => some ((f0 :: rest).foldl formatStep f0)

/-- One iteration of the present-mode loop (lines 219-221). -/
def modeStep (chosen m : Nat) : Nat :=
  if m = VK_PRESENT_MODE_MAILBOX_KHR then m else chosen

/-- Lines 217-222: `chosenMode = presentModes[0]`, then the loop over all
`presentModeCount` entries. -/
def chosenMode : List Nat → Option Nat
  | [] => none
  | m0 :: rest => some ((m0 :: rest).foldl modeStep m0)

/-- Line 224: `uint32_t swapImageCount = caps.minImageCount + 1;`. -/
def swapImageCount (caps : VkSurfaceCapabilitiesKHR) : Nat :=
  (caps.minImageCount + 1) % UINT32_RANGE

/-- Lines 227-247: the create-info handed to `vkCreateSwapchainKHR`. -/
def swapchainCreateInfo (surface : Nat) (caps : VkSurfaceCapabilitiesKHR)
    (fmt : VkSurfaceFormatKHR) (mode : Nat) : VkSwapchainCreateInfoKHR :=
  { surface := surface
    minImageCount := swapImageCount caps
    imageFormat := fmt.format
    imageColorSpace := fmt.colorSpace
    imageExtent := caps.currentExtent
    imageArrayLayers := 1
    imageUsage := VK_IMAGE_USAGE_COLOR_ATTACHMENT_BIT
    imageSharingMode := VK_SHARING_MODE_EXCLUSIVE
    queueFamilyIndexCount := 0
    preTransform := caps.currentTransform
    compositeAlpha := VK_COMPOSITE_ALPHA_OPAQUE_BIT_KHR
    presentMode := mode
    clipped := VK_TRUE
    oldSwapchain := VK_NULL_HANDLE }

/-- Size given to `glfwCreateWindow` (line 133). -/
def requestedWindowSize : VkExtent2D := { width := 1024, height := 728 }

/-! ### The extent rule in the specification's words -/

/-- Vulkan reports `currentExtent = (0xFFFFFFFF, 0xFFFFFFFF)` when the surface
size is left to the swapchain; any other value pins the extent. -/
def extentPinned (caps : VkSurfaceCapabilitiesKHR) : Bool :=
  !(caps.currentExtent.width == 4294967295 && caps.currentExtent.height == 4294967295)

/-- Clamp of one coordinate into `[lo, hi]`. -/
def clampCoord (x lo hi : Nat) : Nat := max lo (min x hi)

/-- Clamp of a requested size into `[minImageExtent, maxImageExtent]`. -/
def clampExtent (req : VkExtent2D) (caps : VkSurfaceCapabilitiesKHR) : VkExtent2D :=
  { width := clampCoord req.width caps.minImageExtent.width caps.maxImageExtent.width
    height := clampCoord req.height caps.minImageExtent.height caps.maxImageExtent.height }

/-- Extent the specification asks for: `currentExtent` when pinned, otherwise
the clamped requested window size. -/
def specExtent (caps : VkSurfaceCapabilitiesKHR) (req : VkExtent2D) : VkExtent2D :=
  if extentPinned caps then caps.currentExtent else clampExtent req caps

/-- Membership of an extent in `[minImageExtent, maxImageExtent]`. -/
def extentWithin (e : VkExtent2D) (caps : VkSurfaceCapabilitiesKHR) : Prop :=
  caps.minImageExtent.width ≤ e.width ∧ e.width ≤ caps.maxImageExtent.width ∧
  caps.minImageExtent.height ≤ e.height ∧ e.height ≤ caps.maxImageExtent.height

instance (e : VkExtent2D) (caps : VkSurfaceCapabilitiesKHR) : Decidable (extentWithin e caps) := by
  unfold extentWithin; infer_instance

/-! ## Runs: the log of platform calls and the value computed -/

/-- Platform calls the program issues, with the arguments the claims are about. -/
inductive Call where
  | glfwInit
  | glfwWindowHint
  | vkEnumerateInstanceLayerProperties
  | glfwGetRequiredInstanceExtensions
  | vkCreateInstance
  | vkEnumerateInstanceExtensionProperties
  | glfwCreateWindow
  | glfwCreateWindowSurface
  | vkEnumeratePhysicalDevices
  | vkGetPhysicalDeviceProperties (physicalDevice : Nat)
  | vkGetPhysicalDeviceFeatures (physicalDevice : Nat)
  | vkGetPhysicalDeviceQueueFamilyProperties (physicalDevice : Nat)
  | vkCreateDevice (physicalDevice : Nat) (queueFamilyIndex : Nat)
  | vkGetDeviceQueue (queueFamilyIndex : Nat)
  | vkGetPhysicalDeviceSurfaceSupportKHR (physicalDevice : Nat) (queueFamilyIndex : Nat)
  | vkGetPhysicalDeviceSurfaceCapabilitiesKHR (physicalDevice : Nat)
  | vkGetPhysicalDeviceSurfaceFormatsKHR (physicalDevice : Nat)
  | vkGetPhysicalDeviceSurfacePresentModesKHR (physicalDevice : Nat)
  | vkCreateSwapchainKHR (createInfo : VkSwapchainCreateInfoKHR)
  | vkGetSwapchainImagesKHR (swapImageCount : Nat)
  | vkCreateImageView (image : Nat)
  | vkCreateSemaphore
  | vkCreateCommandPool (queueFamilyIndex : Nat)
  | vkAllocateCommandBuffers
  | glfwWindowShouldClose
  | glfwPollEvents
  | vkAcquireNextImageKHR (semaphore : Nat)
  | vkResetCommandPool
  | vkBeginCommandBuffer
  | vkCmdClearColorImage (image : Option Nat)
  | vkEndCommandBuffer
  | vkQueueSubmit (waitSemaphore : Nat) (waitDstStageMask : Nat) (signalSemaphore : Nat)
  | vkQueuePresentKHR (waitSemaphore : Nat) (imageIndex : Nat)
  | vkDeviceWaitIdle
  | vkDestroySemaphore (semaphore : Nat)
  | vkDestroyCommandPool
  | vkDestroyImageView (view : Nat)
  | vkDestroySwapchainKHR
  | vkDestroyDevice
  | vkDestroySurfaceKHR
  | vkDestroyInstance
  | glfwDestroyWindow
  | glfwTerminate
deriving DecidableEq, Repr

/-- A logged call with the `VkResult` it reported (`none` for calls that
report none). -/
abbrev Event := Call × Option VkResult

/-- A run: the calls issued so far, and the value computed, or `none` when a
failed `assert` stopped the process. -/
structure Run (α : Type) where
  log : List Event
  value : Option α

def Run.pure {α : Type} (a : α) : Run α := ⟨[], some a⟩

/-- Sequencing: nothing of the continuation happens after an abort. -/
def Run.bind {α β : Type} (r : Run α) (f : α → Run β) : Run β :=
  match r.value with
  | none => ⟨r.log, none⟩
  | some a => ⟨r.log ++ (f a).log, (f a).value⟩

instance : Monad Run where
  pure := Run.pure
  bind := Run.bind

/-- `assert(cond)` with `NDEBUG` undefined. -/
def assert (cond : Bool) : Run Unit := ⟨[], if cond then some () else none⟩

/-- Lines 13-20: the call is made, its result compared with `VK_SUCCESS`, and
the assert stops the process when they differ. -/
def VK_CHECK (c : Call) (result : VkResult) : Run Unit :=
  ⟨[(c, some result)], if result = VK_SUCCESS then some () else none⟩

/-- A call whose `VkResult` the program drops. -/
def unchecked (c : Call) (result : VkResult) : Run Unit := ⟨[(c, some result)], some ()⟩

/-- A call that reports no `VkResult`. -/
def issue (c : Call) : Run Unit := ⟨[(c, none)], some ()⟩

/-! ## The platform -/

/-- Answers of the platform during one iteration of the frame loop. -/
structure Frame where
  vkAcquireNextImageKHR : VkResult
  imageIndex : Nat
  vkResetCommandPool : VkResult
  vkBeginCommandBuffer : VkResult
  vkEndCommandBuffer : VkResult
  vkQueueSubmit : VkResult
  vkQueuePresentKHR : VkResult
  vkDeviceWaitIdle : VkResult
deriving DecidableEq, Repr

/-- Everything the platform answers during one execution.  Fields named after
a call hold the `VkResult` that call reports, as a function of the handle it
is asked about and, for a call `main` makes twice, of whether it is the first
(0) or second (1) call; the other fields hold the data the queries write.  `frames` has one entry per loop iteration in
which `glfwWindowShouldClose` answered 0; after them it answers non-zero. -/
structure Platform where
  glfwInit : Nat
  vkEnumerateInstanceLayerProperties : Nat → VkResult
  availableLayers : List String
  vkCreateInstance : VkResult
  vkEnumerateInstanceExtensionProperties : Nat → VkResult
  glfwCreateWindow : Nat
  glfwCreateWindowSurface : VkResult
  surface : Nat
  vkEnumeratePhysicalDevices : VkResult
  physicalDevices : List Nat
  properties : Nat → VkPhysicalDeviceProperties
  features : Nat → VkPhysicalDeviceFeatures
  queueFamilies : Nat → List VkQueueFamilyProperties
  vkCreateDevice : Nat → Nat → VkResult
  vkGetPhysicalDeviceSurfaceSupportKHR : Nat → Nat → VkResult
  presentSupport : Nat → Nat → Nat
  vkGetPhysicalDeviceSurfaceCapabilitiesKHR : Nat → VkResult
  caps : Nat → VkSurfaceCapabilitiesKHR
  vkGetPhysicalDeviceSurfaceFormatsKHR : Nat → Nat → VkResult
  formats : Nat → List VkSurfaceFormatKHR
  vkGetPhysicalDeviceSurfacePresentModesKHR : Nat → Nat → VkResult
  presentModes : Nat → List Nat
  vkCreateSwapchainKHR : VkSwapchainCreateInfoKHR → VkResult
  vkGetSwapchainImagesKHR : VkResult
  swapchainImages : VkSwapchainCreateInfoKHR → List Nat
  vkCreateImageView : Nat → VkResult
  imageView : Nat → Nat
  vkCreateSemaphore : Nat → VkResult
  acqSemaphore : Nat
  relSemaphore : Nat
  vkCreateCommandPool : VkResult
  vkAllocateCommandBuffers : VkResult
  frames : List Frame

/-- Vulkan enumeration contract: with room for `capacity` entries the call
writes at most that many and reports `VK_INCOMPLETE` when more exist. -/
def enumerateInto {α : Type} (status : VkResult) (available : List α) (capacity : Nat) :
    VkResult × List α :=
  if status ≠ VK_SUCCESS then (status, [])
  else if capacity < available.length then (VK_INCOMPLETE, available.take capacity)
  else (VK_SUCCESS, available)

/-! ## Declared sizes of the fixed arrays of `main` -/

/-- `VkPhysicalDevice physicalDevices[8]` (line 142). -/
def physicalDevicesSize : Nat := 8
/-- `VkQueueFamilyProperties queueProps[8]` (line 152). -/
def queuePropsSize : Nat := 8
/-- `VkSurfaceFormatKHR formats[32]` (line 193). -/
def formatsSize : Nat := 32
/-- `VkPresentModeKHR presentModes[16]` (line 194). -/
def presentModesSize : Nat := 16
/-- `VkImage swapChainImages[8]` and `VkImageView swapChainImageViews[8]`
(lines 252, 255). -/
def swapChainImagesSize : Nat := 8

/-! ## Instance creation and device selection (lines 32-112) -/

def validationLayers : List String := ["VK_LAYER_KHRONOS_validation"]

/-- Lines 32-55. -/
def checkValidationLayerSupport (p : Platform) : Run Bool := do
  unchecked .vkEnumerateInstanceLayerProperties (p.vkEnumerateInstanceLayerProperties 0)
  unchecked .vkEnumerateInstanceLayerProperties (p.vkEnumerateInstanceLayerProperties 1)
  pure (validationLayers.all fun layerName => p.availableLayers.any fun l => l == layerName)

/-- Lines 57-85. -/
def createInstance (p : Platform) : Run Unit := do
  let supported ← checkValidationLayerSupport p
  assert supported
  issue .glfwGetRequiredInstanceExtensions
  unchecked .vkCreateInstance p.vkCreateInstance
  assert (p.vkCreateInstance == VK_SUCCESS)

/-- Lines 88-100: the scan for a discrete device with geometry shaders. -/
def pickPhysicalDeviceLoop (properties : Nat → VkPhysicalDeviceProperties)
    (features : Nat → VkPhysicalDeviceFeatures) : List Nat → Run (Option Nat)
  | [] => pure none
  | d :: rest => do
    issue (.vkGetPhysicalDeviceProperties d)
    issue (.vkGetPhysicalDeviceFeatures d)
    if (properties d).deviceType = VK_PHYSICAL_DEVICE_TYPE_DISCRETE_GPU
        ∧ (features d).geometryShader ≠ 0 then
      pure (some d)
    else
      pickPhysicalDeviceLoop properties features rest

/-- Lines 87-112.  The list holds the first `physicalDeviceCount` entries of
the array. -/
def pickPhysicalDevice (properties : Nat → VkPhysicalDeviceProperties)
    (features : Nat → VkPhysicalDeviceFeatures) (physicalDevices : List Nat) : Run Nat := do
  match ← pickPhysicalDeviceLoop properties features physicalDevices with
  | some d => pure d
  | none =>
    match physicalDevices with
    | d0 :: _ => do
      issue (.vkGetPhysicalDeviceProperties d0)
      pure d0
    | [] => pure VK_NULL_HANDLE

/-! ## `main` up to the frame loop (lines 115-305) -/

/-- Lines 155-161, from index `i` on: the first family whose flags have the
graphics bit; the initial value 0 stays when the loop finds none. -/
def graphicsQueueIdFrom (i : Nat) : List VkQueueFamilyProperties → Nat
  | [] => 0
  | q :: rest =>
    if q.queueFlags &&& VK_QUEUE_GRAPHICS_BIT ≠ 0 then i else graphicsQueueIdFrom (i + 1) rest

def graphicsQueueId (queueProps : List VkQueueFamilyProperties) : Nat :=
  graphicsQueueIdFrom 0 queueProps

/-- Lines 257-272: one view per image, each creation checked. -/
def createImageViews (p : Platform) : List Nat → Run (List Nat)
  | [] => pure []
  | image :: rest => do
    VK_CHECK (.vkCreateImageView image) (p.vkCreateImageView image)
    let views ← createImageViews p rest
    pure (p.imageView image :: views)

/-- Locals of `main` that are live when the frame loop starts.  Arrays are
the lists of entries written into them. -/
structure Setup where
  physicalDevices : List Nat
  physicalDevice : Nat
  queueProps : List VkQueueFamilyProperties
  graphicsQueueId : Nat
  presentSupport : Nat
  caps : VkSurfaceCapabilitiesKHR
  formats : List VkSurfaceFormatKHR
  presentModes : List Nat
  chosenFormat : VkSurfaceFormatKHR
  chosenMode : Nat
  createInfo : VkSwapchainCreateInfoKHR
  swapImageCount : Nat
  swapChainImages : List Nat
  swapChainImageViews : List Nat
  acqSemaphore : Nat
  relSemaphore : Nat
deriving DecidableEq, Repr

/-- Lines 116-305.  The last branch stands for reading `formats[0]` or
`presentModes[0]` with nothing written; the asserts of lines 203 and 207 keep
the program from reaching it. -/
def setup (p : Platform) : Run Setup := do
  issue .glfwInit
  assert (p.glfwInit != 0)
  issue .glfwWindowHint
  createInstance p
  unchecked .vkEnumerateInstanceExtensionProperties (p.vkEnumerateInstanceExtensionProperties 0)
  unchecked .vkEnumerateInstanceExtensionProperties (p.vkEnumerateInstanceExtensionProperties 1)
  issue .glfwCreateWindow
  assert (p.glfwCreateWindow != 0)
  VK_CHECK .glfwCreateWindowSurface p.glfwCreateWindowSurface
  let enumerated := enumerateInto p.vkEnumeratePhysicalDevices p.physicalDevices physicalDevicesSize
  VK_CHECK .vkEnumeratePhysicalDevices enumerated.1
  let physicalDevices := enumerated.2
  let physicalDevice ← pickPhysicalDevice p.properties p.features physicalDevices
  assert (physicalDevice != VK_NULL_HANDLE)
  issue (.vkGetPhysicalDeviceQueueFamilyProperties physicalDevice)
  issue (.vkGetPhysicalDeviceQueueFamilyProperties physicalDevice)
  let queueProps := p.queueFamilies physicalDevice
  let graphicsQueueId := graphicsQueueId queueProps
  VK_CHECK (.vkCreateDevice physicalDevice graphicsQueueId)
    (p.vkCreateDevice physicalDevice graphicsQueueId)
  issue (.vkGetDeviceQueue graphicsQueueId)
  unchecked (.vkGetPhysicalDeviceSurfaceSupportKHR physicalDevice graphicsQueueId)
    (p.vkGetPhysicalDeviceSurfaceSupportKHR physicalDevice graphicsQueueId)
  let presentSupport := p.presentSupport physicalDevice graphicsQueueId
  assert (presentSupport != 0)
  unchecked (.vkGetPhysicalDeviceSurfaceCapabilitiesKHR physicalDevice)
    (p.vkGetPhysicalDeviceSurfaceCapabilitiesKHR physicalDevice)
  let caps := p.caps physicalDevice
  unchecked (.vkGetPhysicalDeviceSurfaceFormatsKHR physicalDevice)
    (p.vkGetPhysicalDeviceSurfaceFormatsKHR physicalDevice 0)
  let formats := p.formats physicalDevice
  let formatCount := formats.length
  assert (formatCount != 0 && decide (formatCount < formatsSize))
  unchecked (.vkGetPhysicalDeviceSurfaceFormatsKHR physicalDevice)
    (p.vkGetPhysicalDeviceSurfaceFormatsKHR physicalDevice 1)
  unchecked (.vkGetPhysicalDeviceSurfacePresentModesKHR physicalDevice)
    (p.vkGetPhysicalDeviceSurfacePresentModesKHR physicalDevice 0)
  let presentModes := p.presentModes physicalDevice
  let presentModeCount := presentModes.length
  assert (presentModeCount != 0 && decide (presentModeCount < presentModesSize))
  unchecked (.vkGetPhysicalDeviceSurfacePresentModesKHR physicalDevice)
    (p.vkGetPhysicalDeviceSurfacePresentModesKHR physicalDevice 1)
  match chosenFormat formats, chosenMode presentModes with
  | some chosenFormat, some chosenMode =>
    let createInfo := swapchainCreateInfo p.surface caps chosenFormat chosenMode
    VK_CHECK (.vkCreateSwapchainKHR createInfo) (p.vkCreateSwapchainKHR createInfo)
    let fetched := enumerateInto p.vkGetSwapchainImagesKHR (p.swapchainImages createInfo)
      (swapImageCount caps)
    VK_CHECK (.vkGetSwapchainImagesKHR (swapImageCount caps)) fetched.1
    let swapChainImages := fetched.2
    let swapChainImageViews ← createImageViews p swapChainImages
    VK_CHECK .vkCreateSemaphore (p.vkCreateSemaphore 0)
    VK_CHECK .vkCreateSemaphore (p.vkCreateSemaphore 1)
    VK_CHECK (.vkCreateCommandPool graphicsQueueId) p.vkCreateCommandPool
    VK_CHECK .vkAllocateCommandBuffers p.vkAllocateCommandBuffers
    pure
      { physicalDevices := physicalDevices
        physicalDevice := physicalDevice
        queueProps := queueProps
        graphicsQueueId := graphicsQueueId
        presentSupport := presentSupport
        caps := caps
        formats := formats
        presentModes := presentModes
        chosenFormat := chosenFormat
        chosenMode := chosenMode
        createInfo := createInfo
        swapImageCount := swapChainImages.length
        swapChainImages := swapChainImages
        swapChainImageViews := swapChainImageViews
        acqSemaphore := p.acqSemaphore
        relSemaphore := p.relSemaphore }
  | _, _ => ⟨[], none⟩

/-! ## The frame loop and teardown (lines 310-378) -/

/-- Lines 311-359: one iteration of the loop body. -/
def frame (s : Setup) (f : Frame) : Run Unit := do
  issue .glfwPollEvents
  VK_CHECK (.vkAcquireNextImageKHR s.acqSemaphore) f.vkAcquireNextImageKHR
  let imageIndex := f.imageIndex
  VK_CHECK .vkResetCommandPool f.vkResetCommandPool
  VK_CHECK .vkBeginCommandBuffer f.vkBeginCommandBuffer
  issue (.vkCmdClearColorImage s.swapChainImages[imageIndex]?)
  VK_CHECK .vkEndCommandBuffer f.vkEndCommandBuffer
  VK_CHECK (.vkQueueSubmit s.acqSemaphore VK_PIPELINE_STAGE_COLOR_ATTACHMENT_OUTPUT_BIT
    s.relSemaphore) f.vkQueueSubmit
  VK_CHECK (.vkQueuePresentKHR s.relSemaphore imageIndex) f.vkQueuePresentKHR
  VK_CHECK .vkDeviceWaitIdle f.vkDeviceWaitIdle

/-- Line 310: `while(!glfwWindowShouldClose(window))`.  Each list entry is an
iteration in which the window stays open; at the end of the list the query
answers non-zero and the loop exits. -/
def frameLoop (s : Setup) : List Frame → Run Unit
  | [] => issue .glfwWindowShouldClose
  | f :: rest => do
    issue .glfwWindowShouldClose
    frame s f
    frameLoop s rest

/-- Lines 368-370. -/
def destroyImageViews : List Nat → Run Unit
  | [] => pure ()
  | view :: rest => do
    issue (.vkDestroyImageView view)
    destroyImageViews rest

/-- Lines 363-377. -/
def teardown (s : Setup) : Run Unit := do
  issue (.vkDestroySemaphore s.acqSemaphore)
  issue (.vkDestroySemaphore s.relSemaphore)
  issue .vkDestroyCommandPool
  destroyImageViews s.swapChainImageViews
  issue .vkDestroySwapchainKHR
  issue .vkDestroyDevice
  issue .vkDestroySurfaceKHR
  issue .vkDestroyInstance
  issue .glfwDestroyWindow
  issue .glfwTerminate

/-- Lines 115-379. -/
def main (p : Platform) : Run Unit := do
  let s ← setup p
  frameLoop s p.frames
  teardown s

/-! ## Observations on a log -/

/-- All platform calls of an iteration succeed. -/
def Frame.succeeds (f : Frame) : Prop :=
  f.vkAcquireNextImageKHR = VK_SUCCESS ∧ f.vkResetCommandPool = VK_SUCCESS ∧
  f.vkBeginCommandBuffer = VK_SUCCESS ∧ f.vkEndCommandBuffer = VK_SUCCESS ∧
  f.vkQueueSubmit = VK_SUCCESS ∧ f.vkQueuePresentKHR = VK_SUCCESS ∧
  f.vkDeviceWaitIdle = VK_SUCCESS

instance (f : Frame) : Decidable f.succeeds := by
  unfold Frame.succeeds; infer_instance

/-- The four calls the frame protocol is stated over. -/
inductive SyncOp where
  | acquire
  | submit
  | present
  | waitIdle
deriving DecidableEq, Repr

def syncOp? : Event → Option SyncOp
  | (.vkAcquireNextImageKHR _, _) => some .acquire
  | (.vkQueueSubmit _ _ _, _) => some .submit
  | (.vkQueuePresentKHR _ _, _) => some .present
  | (.vkDeviceWaitIdle, _) => some .waitIdle
  | _ => none

/-- The log restricted to acquire, submit, present and device-wait-idle. -/
def syncTrace (log : List Event) : List SyncOp := log.filterMap syncOp?

/-- The calls of a whole iteration, by name. -/
inductive FrameCall where
  | shouldClose
  | pollEvents
  | acquire
  | resetCommandPool
  | beginCommandBuffer
  | clearColorImage
  | endCommandBuffer
  | submit
  | present
  | waitIdle
deriving DecidableEq, Repr

def frameCall? : Event → Option FrameCall
  | (.glfwWindowShouldClose, _) => some .shouldClose
  | (.glfwPollEvents, _) => some .pollEvents
  | (.vkAcquireNextImageKHR _, _) => some .acquire
  | (.vkResetCommandPool, _) => some .resetCommandPool
  | (.vkBeginCommandBuffer, _) => some .beginCommandBuffer
  | (.vkCmdClearColorImage _, _) => some .clearColorImage
  | (.vkEndCommandBuffer, _) => some .endCommandBuffer
  | (.vkQueueSubmit _ _ _, _) => some .submit
  | (.vkQueuePresentKHR _ _, _) => some .present
  | (.vkDeviceWaitIdle, _) => some .waitIdle
  | _ => none

/-- `n` copies of a block, one after the other. -/
def repeatBlock {α : Type} (block : List α) : Nat → List α
  | 0 => []
  | n + 1 => block ++ repeatBlock block n

/-- Triples begun by an acquire and not yet followed by a device-idle wait. -/
def outstandingStep (n : Nat) : SyncOp → Nat
  | .acquire => n + 1
  | .waitIdle => 0
  | _ => n

def outstanding (ops : List SyncOp) : Nat := ops.foldl outstandingStep 0

/-- Semaphores handed to the acquire calls, in order. -/
def acquireSemaphores (log : List Event) : List Nat :=
  log.filterMap fun e => match e.1 with
    | .vkAcquireNextImageKHR sem => some sem
    | _ => none

/-- Images the recorded clear commands target, in order. -/
def clearTargets (log : List Event) : List (Option Nat) :=
  log.filterMap fun e => match e.1 with
    | .vkCmdClearColorImage image => some image
    | _ => none

/-- Wait semaphore, wait stage and signal semaphore of the submissions. -/
def submissions (log : List Event) : List (Nat × Nat × Nat) :=
  log.filterMap fun e => match e.1 with
    | .vkQueueSubmit w stage sig => some (w, stage, sig)
    | _ => none

/-- Wait semaphore and image index of the present requests. -/
def presentations (log : List Event) : List (Nat × Nat) :=
  log.filterMap fun e => match e.1 with
    | .vkQueuePresentKHR w idx => some (w, idx)
    | _ => none

/-- Some call of the log creates a swapchain. -/
def createsSwapchain (log : List Event) : Bool :=
  log.any fun e => match e.1 with
    | .vkCreateSwapchainKHR _ => true
    | _ => false

/-- The scan of `pickPhysicalDevice` accepts a device: discrete class with
geometry-shader support (line 96). -/
def discreteWithGeometryShader (properties : Nat → VkPhysicalDeviceProperties)
    (features : Nat → VkPhysicalDeviceFeatures) (d : Nat) : Bool :=
  (properties d).deviceType == VK_PHYSICAL_DEVICE_TYPE_DISCRETE_GPU
    && (features d).geometryShader != 0

/-! ## Concrete capabilities and platforms -/

/-- A surface that allows exactly three images. -/
def exactlyThreeImages : VkSurfaceCapabilitiesKHR :=
  { minImageCount := 3
    maxImageCount := 3
    currentExtent := { width := 1024, height := 728 }
    minImageExtent := { width := 1024, height := 728 }
    maxImageExtent := { width := 1024, height := 728 }
    currentTransform := 1 }

/-- A surface whose size is left to the swapchain. -/
def unpinnedSurface : VkSurfaceCapabilitiesKHR :=
  { minImageCount := 2
    maxImageCount := 8
    currentExtent := { width := 4294967295, height := 4294967295 }
    minImageExtent := { width := 1, height := 1 }
    maxImageExtent := { width := 16384, height := 16384 }
    currentTransform := 1 }

/-- One discrete GPU with geometry shaders, formats `[BGRA8/sRGB, RGBA8/linear]`,
modes `[FIFO, Mailbox]`, every call succeeding, two frames. -/
def scenarioA : Platform :=
  { glfwInit := 1
    vkEnumerateInstanceLayerProperties := fun _ => VK_SUCCESS
    availableLayers := ["VK_LAYER_KHRONOS_validation"]
    vkCreateInstance := VK_SUCCESS
    vkEnumerateInstanceExtensionProperties := fun _ => VK_SUCCESS
    glfwCreateWindow := 7
    glfwCreateWindowSurface := VK_SUCCESS
    surface := 9
    vkEnumeratePhysicalDevices := VK_SUCCESS
    physicalDevices := [101]
    properties := fun _ => { deviceType := VK_PHYSICAL_DEVICE_TYPE_DISCRETE_GPU }
    features := fun _ => { geometryShader := 1 }
    queueFamilies := fun _ => [{ queueFlags := 7 }]
    vkCreateDevice := fun _ _ => VK_SUCCESS
    vkGetPhysicalDeviceSurfaceSupportKHR := fun _ _ => VK_SUCCESS
    presentSupport := fun _ _ => 1
    vkGetPhysicalDeviceSurfaceCapabilitiesKHR := fun _ => VK_SUCCESS
    caps := fun _ =>
      { minImageCount := 2
        maxImageCount := 8
        currentExtent := { width := 1024, height := 728 }
        minImageExtent := { width := 1024, height := 728 }
        maxImageExtent := { width := 1024, height := 728 }
        currentTransform := 1 }
    vkGetPhysicalDeviceSurfaceFormatsKHR := fun _ _ => VK_SUCCESS
    formats := fun _ =>
      [ { format := VK_FORMAT_B8G8R8A8_SRGB, colorSpace := VK_COLOR_SPACE_SRGB_NONLINEAR_KHR },
        { format := VK_FORMAT_R8G8B8A8_UNORM,
          colorSpace := VK_COLOR_SPACE_EXTENDED_SRGB_LINEAR_EXT } ]
    vkGetPhysicalDeviceSurfacePresentModesKHR := fun _ _ => VK_SUCCESS
    presentModes := fun _ => [VK_PRESENT_MODE_FIFO_KHR, VK_PRESENT_MODE_MAILBOX_KHR]
    vkCreateSwapchainKHR := fun _ => VK_SUCCESS
    vkGetSwapchainImagesKHR := VK_SUCCESS
    swapchainImages := fun createInfo => List.range' 1000 createInfo.minImageCount
    vkCreateImageView := fun _ => VK_SUCCESS
    imageView := fun image => image + 1000
    vkCreateSemaphore := fun _ => VK_SUCCESS
    acqSemaphore := 11
    relSemaphore := 12
    vkCreateCommandPool := VK_SUCCESS
    vkAllocateCommandBuffers := VK_SUCCESS
    frames :=
      [ { vkAcquireNextImageKHR := VK_SUCCESS, imageIndex := 0, vkResetCommandPool := VK_SUCCESS,
          vkBeginCommandBuffer := VK_SUCCESS, vkEndCommandBuffer := VK_SUCCESS,
          vkQueueSubmit := VK_SUCCESS, vkQueuePresentKHR := VK_SUCCESS,
          vkDeviceWaitIdle := VK_SUCCESS },
        { vkAcquireNextImageKHR := VK_SUCCESS, imageIndex := 1, vkResetCommandPool := VK_SUCCESS,
          vkBeginCommandBuffer := VK_SUCCESS, vkEndCommandBuffer := VK_SUCCESS,
          vkQueueSubmit := VK_SUCCESS, vkQueuePresentKHR := VK_SUCCESS,
          vkDeviceWaitIdle := VK_SUCCESS } ] }

/-- Locals of `main` at the start of the frame loop on `scenarioA`. -/
def scenarioASetup : Setup :=
  { physicalDevices := [101]
    physicalDevice := 101
    queueProps := [{ queueFlags := 7 }]
    graphicsQueueId := 0
    presentSupport := 1
    caps := scenarioA.caps 101
    formats := scenarioA.formats 101
    presentModes := [VK_PRESENT_MODE_FIFO_KHR, VK_PRESENT_MODE_MAILBOX_KHR]
    chosenFormat := preferredFormat
    chosenMode := VK_PRESENT_MODE_MAILBOX_KHR
    createInfo :=
      swapchainCreateInfo 9 (scenarioA.caps 101) preferredFormat VK_PRESENT_MODE_MAILBOX_KHR
    swapImageCount := 3
    swapChainImages := [1000, 1001, 1002]
    swapChainImageViews := [2000, 2001, 2002]
    acqSemaphore := 11
    relSemaphore := 12 }

/-- Three iterations whose second present request reports an error. -/
def presentFails : List Frame :=
  [ { vkAcquireNextImageKHR := VK_SUCCESS, imageIndex := 1, vkResetCommandPool := VK_SUCCESS,
      vkBeginCommandBuffer := VK_SUCCESS, vkEndCommandBuffer := VK_SUCCESS,
      vkQueueSubmit := VK_SUCCESS, vkQueuePresentKHR := VK_SUCCESS,
      vkDeviceWaitIdle := VK_SUCCESS },
    { vkAcquireNextImageKHR := VK_SUCCESS, imageIndex := 2, vkResetCommandPool := VK_SUCCESS,
      vkBeginCommandBuffer := VK_SUCCESS, vkEndCommandBuffer := VK_SUCCESS,
      vkQueueSubmit := VK_SUCCESS, vkQueuePresentKHR := VK_ERROR_OUT_OF_HOST_MEMORY,
      vkDeviceWaitIdle := VK_SUCCESS },
    { vkAcquireNextImageKHR := VK_SUCCESS, imageIndex := 0, vkResetCommandPool := VK_SUCCESS,
      vkBeginCommandBuffer := VK_SUCCESS, vkEndCommandBuffer := VK_SUCCESS,
      vkQueueSubmit := VK_SUCCESS, vkQueuePresentKHR := VK_SUCCESS,
      vkDeviceWaitIdle := VK_SUCCESS } ]

/-- The only device has one queue family, compute and transfer without the
graphics bit, and that family can present to the surface. -/
def computeOnlyPlatform : Platform :=
  { scenarioA with
    queueFamilies := fun _ => [{ queueFlags := VK_QUEUE_COMPUTE_BIT ||| VK_QUEUE_TRANSFER_BIT }] }

/-- The surface-capabilities query reports an error; every other call succeeds. -/
def capsQueryFails : Platform :=
  { scenarioA with
    vkGetPhysicalDeviceSurfaceCapabilitiesKHR := fun _ => VK_ERROR_OUT_OF_HOST_MEMORY }

/-- The device reports nine queue families. -/
def nineQueueFamilies : Platform :=
  { scenarioA with
    queueFamilies := fun _ => List.replicate 9 { queueFlags := 7 } }

/-- The surface needs at least eight images, so nine are requested and made. -/
def nineSwapchainImages : Platform :=
  { scenarioA with
    caps := fun _ =>
      { minImageCount := 8
        maxImageCount := 16
        currentExtent := { width := 1024, height := 728 }
        minImageExtent := { width := 1024, height := 728 }
        maxImageExtent := { width := 1024, height := 728 }
        currentTransform := 1 }
    frames :=
      [ { vkAcquireNextImageKHR := VK_SUCCESS, imageIndex := 8, vkResetCommandPool := VK_SUCCESS,
          vkBeginCommandBuffer := VK_SUCCESS, vkEndCommandBuffer := VK_SUCCESS,
          vkQueueSubmit := VK_SUCCESS, vkQueuePresentKHR := VK_SUCCESS,
          vkDeviceWaitIdle := VK_SUCCESS } ] }

/-! # Theorems -/

/-! ## Format and present-mode selection -/

theorem formatStep_eq (chosen f : VkSurfaceFormatKHR) :
    formatStep chosen f = if f = preferredFormat then preferredFormat else chosen := by
  unfold formatStep preferredFormat
  cases f with
  | mk fm cs =>
    by_cases h1 : fm = VK_FORMAT_B8G8R8A8_SRGB <;> by_cases h2 : cs = VK_COLOR_SPACE_SRGB_NONLINEAR_KHR
      <;> simp [h1, h2]

theorem foldl_formatStep_not_mem (l : List VkSurfaceFormatKHR) (c : VkSurfaceFormatKHR)
    (h : preferredFormat ∉ l) : l.foldl formatStep c = c := by
  induction l generalizing c with
  | nil => rfl
  | cons a t ih =>
    have ha : a ≠ preferredFormat := fun e => h (by simp [e])
    have ht : preferredFormat ∉ t := fun e => h (by simp [e])
    simp [List.foldl_cons, formatStep_eq, ha, ih _ ht]

theorem foldl_formatStep_preferred (l : List VkSurfaceFormatKHR) :
    l.foldl formatStep preferredFormat = preferredFormat := by
  induction l with
  | nil => rfl
  | cons a t ih =>
    by_cases ha : a = preferredFormat <;> simp [List.foldl_cons, formatStep_eq, ha, ih]

theorem foldl_formatStep_mem (l : List VkSurfaceFormatKHR) (c : VkSurfaceFormatKHR)
    (h : preferredFormat ∈ l) : l.foldl formatStep c = preferredFormat := by
  induction l generalizing c with
  | nil => simp at h
  | cons a t ih =>
    by_cases ha : a = preferredFormat
    · simp [List.foldl_cons, formatStep_eq, ha, foldl_formatStep_preferred]
    · have ht : preferredFormat ∈ t := by
        rcases List.mem_cons.mp h with e | e
        · exact absurd e.symm ha
        · exact e
      simp [List.foldl_cons, formatStep_eq, ha, ih _ ht]

theorem foldl_modeStep_not_mem (l : List Nat) (c : Nat)
    (h : VK_PRESENT_MODE_MAILBOX_KHR ∉ l) : l.foldl modeStep c = c := by
  induction l generalizing c with
  | nil => rfl
  | cons a t ih =>
    have ha : a ≠ VK_PRESENT_MODE_MAILBOX_KHR := fun e => h (by simp [e])
    have ht : VK_PRESENT_MODE_MAILBOX_KHR ∉ t := fun e => h (by simp [e])
    simp [List.foldl_cons, modeStep, ha, ih _ ht]

theorem foldl_modeStep_mailbox (l : List Nat) :
    l.foldl modeStep VK_PRESENT_MODE_MAILBOX_KHR = VK_PRESENT_MODE_MAILBOX_KHR := by
  induction l with
  | nil => rfl
  | cons a t ih =>
    by_cases ha : a = VK_PRESENT_MODE_MAILBOX_KHR <;> simp [List.foldl_cons, modeStep, ha, ih]

theorem foldl_modeStep_mem (l : List Nat) (c : Nat)
    (h : VK_PRESENT_MODE_MAILBOX_KHR ∈ l) : l.foldl modeStep c = VK_PRESENT_MODE_MAILBOX_KHR := by
  induction l generalizing c with
  | nil => simp at h
  | cons a t ih =>
    by_cases ha : a = VK_PRESENT_MODE_MAILBOX_KHR
    · simp [List.foldl_cons, modeStep, ha, foldl_modeStep_mailbox]
    · have ht : VK_PRESENT_MODE_MAILBOX_KHR ∈ t := by
        rcases List.mem_cons.mp h with e | e
        · exact absurd e.symm ha
        · exact e
      simp [List.foldl_cons, modeStep, ha, ih _ ht]

/-- C1: for every non-empty advertised format list of fewer than 32 entries,
the chosen format is the pair (B8G8R8A8_SRGB, SRGB_NONLINEAR) when the list
contains it and the first advertised entry otherwise; in both cases it is a
member of the list. -/
theorem chosenFormat_selects (formats : List VkSurfaceFormatKHR)
    (hne : formats ≠ []) (_hlt : formats.length < formatsSize) :
    (preferredFormat ∈ formats → chosenFormat formats = some preferredFormat) ∧
    (preferredFormat ∉ formats → chosenFormat formats = formats.head?) ∧
    (∃ f ∈ formats, chosenFormat formats = some f) := by
  cases formats with
  | nil => exact absurd rfl hne
  | cons f0 rest =>
    have hin : preferredFormat ∈ f0 :: rest → chosenFormat (f0 :: rest) = some preferredFormat := by
      intro h
      simp only [chosenFormat]
      rw [foldl_formatStep_mem _ _ h]
    have hout : preferredFormat ∉ f0 :: rest → chosenFormat (f0 :: rest) = (f0 :: rest).head? := by
      intro h
      simp only [chosenFormat]
      rw [foldl_formatStep_not_mem _ _ h]
      rfl
    refine ⟨hin, hout, ?_⟩
    by_cases h : preferredFormat ∈ f0 :: rest
    · exact ⟨preferredFormat, h, hin h⟩
    · exact ⟨f0, by simp, by rw [hout h]; rfl⟩

/-- Scenario A of the specification: formats `[BGRA8/sRGB, RGBA8/linear]`. -/
theorem chosenFormat_selects_witness :
    chosenFormat (scenarioA.formats 101) = some preferredFormat :=
  (chosenFormat_selects (scenarioA.formats 101) (by decide) (by decide)).1 (by decide)

/-- C2: for every non-empty advertised present-mode list of fewer than 16
entries, the chosen mode is mailbox when the list contains it and the first
advertised mode otherwise. -/
theorem chosenMode_selects (presentModes : List Nat)
    (hne : presentModes ≠ []) (_hlt : presentModes.length < presentModesSize) :
    (VK_PRESENT_MODE_MAILBOX_KHR ∈ presentModes →
      chosenMode presentModes = some VK_PRESENT_MODE_MAILBOX_KHR) ∧
    (VK_PRESENT_MODE_MAILBOX_KHR ∉ presentModes →
      chosenMode presentModes = presentModes.head?) := by
  cases presentModes with
  | nil => exact absurd rfl hne
  | cons m0 rest =>
    constructor
    · intro h
      simp only [chosenMode]
      rw [foldl_modeStep_mem _ _ h]
    · intro h
      simp only [chosenMode]
      rw [foldl_modeStep_not_mem _ _ h]
      rfl

/-- Modes `[FIFO, Mailbox]` yield Mailbox and modes `[FIFO]` yield FIFO. -/
theorem chosenMode_selects_witness :
    chosenMode [VK_PRESENT_MODE_FIFO_KHR, VK_PRESENT_MODE_MAILBOX_KHR]
        = some VK_PRESENT_MODE_MAILBOX_KHR ∧
      chosenMode [VK_PRESENT_MODE_FIFO_KHR] = some VK_PRESENT_MODE_FIFO_KHR :=
  ⟨(chosenMode_selects [VK_PRESENT_MODE_FIFO_KHR, VK_PRESENT_MODE_MAILBOX_KHR]
      (by decide) (by decide)).1 (by decide),
   (chosenMode_selects [VK_PRESENT_MODE_FIFO_KHR] (by decide) (by decide)).2 (by decide)⟩

/-! ## Image count and extent -/

/-- C3, as stated, fails: with `minImageCount = maxImageCount = 3` the count
passed to swapchain creation is 4, above the cap. -/
theorem imageCount_exceeds_cap :
    exactlyThreeImages.minImageCount ≤ exactlyThreeImages.maxImageCount ∧
    (swapchainCreateInfo 9 exactlyThreeImages preferredFormat
        VK_PRESENT_MODE_FIFO_KHR).minImageCount = 4 ∧
    ¬ ((swapchainCreateInfo 9 exactlyThreeImages preferredFormat
          VK_PRESENT_MODE_FIFO_KHR).minImageCount
          = max (exactlyThreeImages.minImageCount + 1) exactlyThreeImages.minImageCount ∧
        (0 < exactlyThreeImages.maxImageCount →
          (swapchainCreateInfo 9 exactlyThreeImages preferredFormat
            VK_PRESENT_MODE_FIFO_KHR).minImageCount ≤ exactlyThreeImages.maxImageCount)) := by
  decide

/-- C3, amended: the image count passed to swapchain creation is
`minImageCount + 1` in 32-bit unsigned arithmetic; when `minImageCount + 1`
does not wrap it equals `max(minImageCount + 1, minImageCount)`, and it stays
within `maxImageCount` exactly when `minImageCount < maxImageCount`. -/
theorem imageCount_is_min_plus_one (surface : Nat) (caps : VkSurfaceCapabilitiesKHR)
    (fmt : VkSurfaceFormatKHR) (mode : Nat) :
    (swapchainCreateInfo surface caps fmt mode).minImageCount
        = (caps.minImageCount + 1) % UINT32_RANGE ∧
    (caps.minImageCount + 1 < UINT32_RANGE →
      (swapchainCreateInfo surface caps fmt mode).minImageCount
          = max (caps.minImageCount + 1) caps.minImageCount ∧
      ((swapchainCreateInfo surface caps fmt mode).minImageCount ≤ caps.maxImageCount
          ↔ caps.minImageCount < caps.maxImageCount)) := by
  refine ⟨rfl, ?_⟩
  intro hmin
  have h : (swapchainCreateInfo surface caps fmt mode).minImageCount = caps.minImageCount + 1 := by
    simp only [swapchainCreateInfo, swapImageCount]
    exact Nat.mod_eq_of_lt hmin
  rw [h]
  constructor <;> omega

theorem imageCount_is_min_plus_one_witness :
    (swapchainCreateInfo 9 (scenarioA.caps 101) preferredFormat
        VK_PRESENT_MODE_MAILBOX_KHR).minImageCount = max (2 + 1) 2 ∧
    ((swapchainCreateInfo 9 (scenarioA.caps 101) preferredFormat
        VK_PRESENT_MODE_MAILBOX_KHR).minImageCount ≤ 8 ↔ 2 < 8) :=
  (imageCount_is_min_plus_one 9 (scenarioA.caps 101) preferredFormat
    VK_PRESENT_MODE_MAILBOX_KHR).2 (by decide)

/-- C6, as stated, fails: on a surface that does not pin the extent the
extent passed to swapchain creation is `currentExtent = (0xFFFFFFFF,
0xFFFFFFFF)`, neither the clamped window size nor within the allowed range. -/
theorem imageExtent_not_clamped :
    extentPinned unpinnedSurface = false ∧
    (swapchainCreateInfo 9 unpinnedSurface preferredFormat VK_PRESENT_MODE_FIFO_KHR).imageExtent
      ≠ specExtent unpinnedSurface requestedWindowSize ∧
    ¬ extentWithin
      (swapchainCreateInfo 9 unpinnedSurface preferredFormat VK_PRESENT_MODE_FIFO_KHR).imageExtent
      unpinnedSurface := by
  decide

/-- C6, amended: the extent passed to swapchain creation is always
`capabilities.currentExtent`; it is the extent the specification asks for
when the platform pins it, and it lies within `[minImageExtent,
maxImageExtent]` whenever `currentExtent` does. -/
theorem imageExtent_is_currentExtent (surface : Nat) (caps : VkSurfaceCapabilitiesKHR)
    (fmt : VkSurfaceFormatKHR) (mode : Nat) :
    (swapchainCreateInfo surface caps fmt mode).imageExtent = caps.currentExtent ∧
    (extentPinned caps = true →
      (swapchainCreateInfo surface caps fmt mode).imageExtent
        = specExtent caps requestedWindowSize) ∧
    (extentWithin caps.currentExtent caps →
      extentWithin (swapchainCreateInfo surface caps fmt mode).imageExtent caps) := by
  refine ⟨rfl, ?_, ?_⟩
  · intro h
    simp [swapchainCreateInfo, specExtent, h]
  · intro h
    exact h

theorem imageExtent_is_currentExtent_witness :
    (swapchainCreateInfo 9 (scenarioA.caps 101) preferredFormat
        VK_PRESENT_MODE_MAILBOX_KHR).imageExtent = specExtent (scenarioA.caps 101)
          requestedWindowSize ∧
    extentWithin (swapchainCreateInfo 9 (scenarioA.caps 101) preferredFormat
        VK_PRESENT_MODE_MAILBOX_KHR).imageExtent (scenarioA.caps 101) :=
  ⟨(imageExtent_is_currentExtent 9 (scenarioA.caps 101) preferredFormat
      VK_PRESENT_MODE_MAILBOX_KHR).2.1 (by decide),
   (imageExtent_is_currentExtent 9 (scenarioA.caps 101) preferredFormat
      VK_PRESENT_MODE_MAILBOX_KHR).2.2 (by decide)⟩

/-! ## Device selection -/

theorem pickPhysicalDeviceLoop_value (properties : Nat → VkPhysicalDeviceProperties)
    (features : Nat → VkPhysicalDeviceFeatures) (devs : List Nat) :
    (pickPhysicalDeviceLoop properties features devs).value
      = some (devs.find? (discreteWithGeometryShader properties features)) := by
  induction devs with
  | nil => rfl
  | cons d rest ih =>
    by_cases h : discreteWithGeometryShader properties features d = true
    · have h2 := h
      simp only [discreteWithGeometryShader, Bool.and_eq_true, beq_iff_eq, bne_iff_ne] at h2
      simp [pickPhysicalDeviceLoop, List.find?_cons, h, h2, bind, Run.bind, issue, pure, Run.pure]
    · have h2 := h
      simp only [discreteWithGeometryShader, Bool.and_eq_true, beq_iff_eq, bne_iff_ne] at h2
      simp [pickPhysicalDeviceLoop, List.find?_cons, h, h2, bind, Run.bind, issue, ih]

theorem pickPhysicalDevice_value (properties : Nat → VkPhysicalDeviceProperties)
    (features : Nat → VkPhysicalDeviceFeatures) (devs : List Nat) :
    (pickPhysicalDevice properties features devs).value
      = some (((devs.find? (discreteWithGeometryShader properties features)).or devs.head?).getD
          VK_NULL_HANDLE) := by
  have h := pickPhysicalDeviceLoop_value properties features devs
  unfold pickPhysicalDevice
  cases hf : devs.find? (discreteWithGeometryShader properties features) with
  | some d =>
    rw [hf] at h
    simp [bind, Run.bind, h, pure, Run.pure]
  | none =>
    rw [hf] at h
    cases devs with
    | nil => simp [bind, Run.bind, h, pure, Run.pure]
    | cons d0 rest => simp [bind, Run.bind, h, pure, Run.pure, issue]

theorem find?_discrete_congr (properties properties' : Nat → VkPhysicalDeviceProperties)
    (features features' : Nat → VkPhysicalDeviceFeatures) (devs : List Nat)
    (h : ∀ d ∈ devs, properties' d = properties d ∧ features' d = features d) :
    devs.find? (discreteWithGeometryShader properties' features')
      = devs.find? (discreteWithGeometryShader properties features) := by
  induction devs with
  | nil => rfl
  | cons d rest ih =>
    have hd := h d (by simp)
    have hrest : ∀ x ∈ rest, properties' x = properties x ∧ features' x = features x :=
      fun x hx => h x (by simp [hx])
    have e : discreteWithGeometryShader properties' features' d
        = discreteWithGeometryShader properties features d := by
      simp [discreteWithGeometryShader, hd.1, hd.2]
    simp [List.find?_cons, e, ih hrest]

/-- C4: `pickPhysicalDevice` always returns; it returns the first enumerated
device that is discrete-class with geometry-shader support when one exists,
otherwise the first enumerated candidate whatever its type and features; for
candidate lists of non-null handles it returns the null handle exactly when
the list is empty; and its result depends only on the candidate list and the
properties and features queried for its members. -/
theorem pickPhysicalDevice_policy (properties : Nat → VkPhysicalDeviceProperties)
    (features : Nat → VkPhysicalDeviceFeatures) (devs : List Nat) :
    (∀ d, devs.find? (discreteWithGeometryShader properties features) = some d →
      (pickPhysicalDevice properties features devs).value = some d) ∧
    (devs.find? (discreteWithGeometryShader properties features) = none →
      ∀ d0 rest, devs = d0 :: rest →
        (pickPhysicalDevice properties features devs).value = some d0) ∧
    (devs = [] → (pickPhysicalDevice properties features devs).value = some VK_NULL_HANDLE) ∧
    ((∀ d ∈ devs, d ≠ VK_NULL_HANDLE) →
      (pickPhysicalDevice properties features devs).value = some VK_NULL_HANDLE → devs = []) ∧
    (∀ properties' features',
      (∀ d ∈ devs, properties' d = properties d ∧ features' d = features d) →
      (pickPhysicalDevice properties' features' devs).value
        = (pickPhysicalDevice properties features devs).value) := by
  refine ⟨?_, ?_, ?_, ?_, ?_⟩
  · intro d hd
    rw [pickPhysicalDevice_value, hd]
    rfl
  · intro hnone d0 rest hdevs
    rw [pickPhysicalDevice_value, hnone, hdevs]
    rfl
  · intro h
    rw [pickPhysicalDevice_value, h]
    rfl
  · intro hnn h
    rw [pickPhysicalDevice_value] at h
    cases devs with
    | nil => rfl
    | cons d0 rest =>
      exfalso
      cases hf : (d0 :: rest).find? (discreteWithGeometryShader properties features) with
      | some d =>
        rw [hf] at h
        have hmem : d ∈ d0 :: rest := List.mem_of_find?_eq_some hf
        have hz : d = VK_NULL_HANDLE := by simpa using h
        exact hnn d hmem hz
      | none =>
        rw [hf] at h
        have hz : d0 = VK_NULL_HANDLE := by simpa using h
        exact hnn d0 (by simp) hz
  · intro properties' features' h
    rw [pickPhysicalDevice_value, pickPhysicalDevice_value, find?_discrete_congr _ _ _ _ _ h]

/-- Scenario B of the specification: a single integrated GPU (handle 101) is
picked by the fallback; and with a discrete GPU second in the list that one
is picked. -/
theorem pickPhysicalDevice_policy_witness :
    (pickPhysicalDevice (fun _ => { deviceType := VK_PHYSICAL_DEVICE_TYPE_INTEGRATED_GPU })
      (fun _ => { geometryShader := 1 }) [101]).value = some 101 ∧
    (pickPhysicalDevice
      (fun d => { deviceType := if d = 102 then VK_PHYSICAL_DEVICE_TYPE_DISCRETE_GPU
                                else VK_PHYSICAL_DEVICE_TYPE_INTEGRATED_GPU })
      (fun _ => { geometryShader := 1 }) [101, 102, 103]).value = some 102 :=
  ⟨(pickPhysicalDevice_policy (fun _ => { deviceType := VK_PHYSICAL_DEVICE_TYPE_INTEGRATED_GPU })
      (fun _ => { geometryShader := 1 }) [101]).2.1 (by decide) 101 [] rfl,
   (pickPhysicalDevice_policy
      (fun d => { deviceType := if d = 102 then VK_PHYSICAL_DEVICE_TYPE_DISCRETE_GPU
                                else VK_PHYSICAL_DEVICE_TYPE_INTEGRATED_GPU })
      (fun _ => { geometryShader := 1 }) [101, 102, 103]).1 102 (by decide)⟩

/-! ## The frame loop -/

theorem frame_of_succeeds (s : Setup) (f : Frame) (h : f.succeeds) :
    frame s f =
      ⟨[ (.glfwPollEvents, none),
         (.vkAcquireNextImageKHR s.acqSemaphore, some VK_SUCCESS),
         (.vkResetCommandPool, some VK_SUCCESS),
         (.vkBeginCommandBuffer, some VK_SUCCESS),
         (.vkCmdClearColorImage s.swapChainImages[f.imageIndex]?, none),
         (.vkEndCommandBuffer, some VK_SUCCESS),
         (.vkQueueSubmit s.acqSemaphore VK_PIPELINE_STAGE_COLOR_ATTACHMENT_OUTPUT_BIT
            s.relSemaphore, some VK_SUCCESS),
         (.vkQueuePresentKHR s.relSemaphore f.imageIndex, some VK_SUCCESS),
         (.vkDeviceWaitIdle, some VK_SUCCESS) ],
       some ()⟩ := by
  obtain ⟨h1, h2, h3, h4, h5, h6, h7⟩ := h
  simp [frame, VK_CHECK, issue, bind, Run.bind, h1, h2, h3, h4, h5, h6, h7]

theorem frameLoop_cons (s : Setup) (f : Frame) (rest : List Frame) (h : f.succeeds) :
    frameLoop s (f :: rest) =
      ⟨(.glfwWindowShouldClose, none) :: ((frame s f).log ++ (frameLoop s rest).log),
       (frameLoop s rest).value⟩ := by
  have hv : (frame s f).value = some () := by rw [frame_of_succeeds s f h]
  simp [frameLoop, bind, Run.bind, issue, hv]

theorem frameLoop_value (s : Setup) (frames : List Frame) (hok : ∀ f ∈ frames, f.succeeds) :
    (frameLoop s frames).value = some () := by
  induction frames with
  | nil => rfl
  | cons f rest ih =>
    rw [frameLoop_cons s f rest (hok f (by simp))]
    exact ih (fun x hx => hok x (by simp [hx]))

theorem frameLoop_frameCalls (s : Setup) (frames : List Frame)
    (hok : ∀ f ∈ frames, f.succeeds) :
    (frameLoop s frames).log.filterMap frameCall?
      = repeatBlock [FrameCall.shouldClose, .pollEvents, .acquire, .resetCommandPool,
          .beginCommandBuffer, .clearColorImage, .endCommandBuffer, .submit, .present,
          .waitIdle] frames.length ++ [.shouldClose] := by
  induction frames with
  | nil => rfl
  | cons f rest ih =>
    have hf := hok f (by simp)
    rw [frameLoop_cons s f rest hf, frame_of_succeeds s f hf]
    simp [repeatBlock, frameCall?, List.filterMap_cons, List.filterMap_append,
      ih (fun x hx => hok x (by simp [hx]))]

theorem frameLoop_syncTrace (s : Setup) (frames : List Frame)
    (hok : ∀ f ∈ frames, f.succeeds) :
    syncTrace (frameLoop s frames).log
      = repeatBlock [SyncOp.acquire, .submit, .present, .waitIdle] frames.length := by
  induction frames with
  | nil => rfl
  | cons f rest ih =>
    have hf := hok f (by simp)
    have ih' := ih (fun x hx => hok x (by simp [hx]))
    unfold syncTrace at ih' ⊢
    rw [frameLoop_cons s f rest hf, frame_of_succeeds s f hf]
    simp [repeatBlock, syncOp?, List.filterMap_cons, List.filterMap_append, ih']

theorem outstanding_repeat_take (n k : Nat) :
    outstanding ((repeatBlock [SyncOp.acquire, .submit, .present, .waitIdle] n).take k) ≤ 1 := by
  induction n generalizing k with
  | zero => simp [repeatBlock, outstanding]
  | succ n ih =>
    rcases k with _ | _ | _ | _ | k
    · simp [repeatBlock, outstanding]
    · simp [repeatBlock, outstanding, outstandingStep]
    · simp [repeatBlock, outstanding, outstandingStep]
    · simp [repeatBlock, outstanding, outstandingStep]
    · have := ih k
      simpa [repeatBlock, outstanding, outstandingStep] using this

theorem count_repeat (op : SyncOp) (n : Nat)
    (hop : op ∈ [SyncOp.acquire, .submit, .present, .waitIdle]) :
    (repeatBlock [SyncOp.acquire, .submit, .present, .waitIdle] n).count op = n := by
  induction n with
  | zero => simp [repeatBlock]
  | succ n ih =>
    simp only [repeatBlock, List.count_append, ih]
    cases op <;> simp [List.count_cons] <;> omega

/-- C7: when all platform calls of `N` loop iterations succeed, the loop runs
to its exit, the calls it issues are `N` repetitions of the iteration's call
sequence followed by the closing `glfwWindowShouldClose`, and restricted to
acquire, submit, present and device-wait-idle they are exactly `N`
repetitions of acquire, submit, present, device-wait-idle in that order: `N`
of each, and after every prefix at most one triple awaits its device-idle
wait. -/
theorem frameLoop_order (s : Setup) (frames : List Frame) (hok : ∀ f ∈ frames, f.succeeds) :
    (frameLoop s frames).value = some () ∧
    (frameLoop s frames).log.filterMap frameCall?
      = repeatBlock [FrameCall.shouldClose, .pollEvents, .acquire, .resetCommandPool,
          .beginCommandBuffer, .clearColorImage, .endCommandBuffer, .submit, .present,
          .waitIdle] frames.length ++ [.shouldClose] ∧
    syncTrace (frameLoop s frames).log
      = repeatBlock [SyncOp.acquire, .submit, .present, .waitIdle] frames.length ∧
    (syncTrace (frameLoop s frames).log).count .acquire = frames.length ∧
    (syncTrace (frameLoop s frames).log).count .submit = frames.length ∧
    (syncTrace (frameLoop s frames).log).count .present = frames.length ∧
    (syncTrace (frameLoop s frames).log).count .waitIdle = frames.length ∧
    ∀ k, outstanding ((syncTrace (frameLoop s frames).log).take k) ≤ 1 := by
  have ht := frameLoop_syncTrace s frames hok
  refine ⟨frameLoop_value s frames hok, frameLoop_frameCalls s frames hok, ht, ?_, ?_, ?_, ?_, ?_⟩
  · rw [ht]; exact count_repeat _ _ (by simp)
  · rw [ht]; exact count_repeat _ _ (by simp)
  · rw [ht]; exact count_repeat _ _ (by simp)
  · rw [ht]; exact count_repeat _ _ (by simp)
  · intro k
    rw [ht]
    exact outstanding_repeat_take _ k

theorem frameLoop_order_witness :
    (frameLoop scenarioASetup scenarioA.frames).value = some () ∧
    syncTrace (frameLoop scenarioASetup scenarioA.frames).log
      = [.acquire, .submit, .present, .waitIdle, .acquire, .submit, .present, .waitIdle] :=
  ⟨(frameLoop_order scenarioASetup scenarioA.frames (by decide)).1,
   (frameLoop_order scenarioASetup scenarioA.frames (by decide)).2.2.1⟩

/-- Scenario A of the specification end to end: setup reaches the frame loop
with format BGRA8/sRGB and mode Mailbox. -/
theorem setup_scenarioA : (setup scenarioA).value = some scenarioASetup := by
  decide

theorem frameLoop_wiring_of_succeeds (s : Setup) (frames : List Frame)
    (hok : ∀ f ∈ frames, f.succeeds) :
    acquireSemaphores (frameLoop s frames).log = frames.map (fun _ => s.acqSemaphore) ∧
    submissions (frameLoop s frames).log
      = frames.map (fun _ =>
          (s.acqSemaphore, VK_PIPELINE_STAGE_COLOR_ATTACHMENT_OUTPUT_BIT, s.relSemaphore)) ∧
    presentations (frameLoop s frames).log
      = frames.map (fun f => (s.relSemaphore, f.imageIndex)) ∧
    clearTargets (frameLoop s frames).log
      = frames.map (fun f => s.swapChainImages[f.imageIndex]?) := by
  induction frames with
  | nil => exact ⟨rfl, rfl, rfl, rfl⟩
  | cons f rest ih =>
    have hf := hok f (by simp)
    obtain ⟨i1, i2, i3, i4⟩ := ih (fun x hx => hok x (by simp [hx]))
    unfold acquireSemaphores at i1
    unfold submissions at i2
    unfold presentations at i3
    unfold clearTargets at i4
    unfold acquireSemaphores submissions presentations clearTargets
    rw [frameLoop_cons s f rest hf, frame_of_succeeds s f hf]
    simp [List.filterMap_cons, List.filterMap_append, i1, i2, i3, i4]

/-- One iteration, whatever the platform answers: the acquire is issued with
`acqSemaphore`; the clear, the submission and the present request are issued
or not (`c`, `sb`, `pr` are 0 or 1), never a later one without the earlier,
and each one issued carries the wiring of the source. -/
theorem frame_shape (s : Setup) (f : Frame) :
    ∃ c sb pr : Nat, pr ≤ sb ∧ sb ≤ c ∧ c ≤ 1 ∧
      acquireSemaphores (frame s f).log = [s.acqSemaphore] ∧
      clearTargets (frame s f).log
        = ([f].take c).map (fun f => s.swapChainImages[f.imageIndex]?) ∧
      submissions (frame s f).log
        = ([f].take sb).map (fun _ =>
            (s.acqSemaphore, VK_PIPELINE_STAGE_COLOR_ATTACHMENT_OUTPUT_BIT, s.relSemaphore)) ∧
      presentations (frame s f).log
        = ([f].take pr).map (fun f => (s.relSemaphore, f.imageIndex)) ∧
      ((frame s f).value = none ∨
        ((frame s f).value = some () ∧ c = 1 ∧ sb = 1 ∧ pr = 1)) := by
  by_cases h1 : f.vkAcquireNextImageKHR = VK_SUCCESS
  swap
  · refine ⟨0, 0, 0, by omega, by omega, by omega, ?_, ?_, ?_, ?_, Or.inl ?_⟩ <;>
    simp [frame, VK_CHECK, issue, bind, Run.bind, acquireSemaphores, clearTargets, submissions,
      presentations, h1]
  by_cases h2 : f.vkResetCommandPool = VK_SUCCESS
  swap
  · refine ⟨0, 0, 0, by omega, by omega, by omega, ?_, ?_, ?_, ?_, Or.inl ?_⟩ <;>
    simp [frame, VK_CHECK, issue, bind, Run.bind, acquireSemaphores, clearTargets, submissions,
      presentations, h1, h2]
  by_cases h3 : f.vkBeginCommandBuffer = VK_SUCCESS
  swap
  · refine ⟨0, 0, 0, by omega, by omega, by omega, ?_, ?_, ?_, ?_, Or.inl ?_⟩ <;>
    simp [frame, VK_CHECK, issue, bind, Run.bind, acquireSemaphores, clearTargets, submissions,
      presentations, h1, h2, h3]
  by_cases h4 : f.vkEndCommandBuffer = VK_SUCCESS
  swap
  · refine ⟨1, 0, 0, by omega, by omega, by omega, ?_, ?_, ?_, ?_, Or.inl ?_⟩ <;>
    simp [frame, VK_CHECK, issue, bind, Run.bind, acquireSemaphores, clearTargets, submissions,
      presentations, h1, h2, h3, h4]
  by_cases h5 : f.vkQueueSubmit = VK_SUCCESS
  swap
  · refine ⟨1, 1, 0, by omega, by omega, by omega, ?_, ?_, ?_, ?_, Or.inl ?_⟩ <;>
    simp [frame, VK_CHECK, issue, bind, Run.bind, acquireSemaphores, clearTargets, submissions,
      presentations, h1, h2, h3, h4, h5]
  by_cases h6 : f.vkQueuePresentKHR = VK_SUCCESS
  swap
  · refine ⟨1, 1, 1, by omega, by omega, by omega, ?_, ?_, ?_, ?_, Or.inl ?_⟩ <;>
    simp [frame, VK_CHECK, issue, bind, Run.bind, acquireSemaphores, clearTargets, submissions,
      presentations, h1, h2, h3, h4, h5, h6]
  by_cases h7 : f.vkDeviceWaitIdle = VK_SUCCESS
  swap
  · refine ⟨1, 1, 1, by omega, by omega, by omega, ?_, ?_, ?_, ?_, Or.inl ?_⟩ <;>
    simp [frame, VK_CHECK, issue, bind, Run.bind, acquireSemaphores, clearTargets, submissions,
      presentations, h1, h2, h3, h4, h5, h6, h7]
  refine ⟨1, 1, 1, by omega, by omega, by omega, ?_, ?_, ?_, ?_, Or.inr ⟨?_, rfl, rfl, rfl⟩⟩ <;>
    simp [frame, VK_CHECK, issue, bind, Run.bind, acquireSemaphores, clearTargets, submissions,
      presentations, h1, h2, h3, h4, h5, h6, h7]

theorem frameLoop_cons_log (s : Setup) (f : Frame) (rest : List Frame) :
    ((frame s f).value = none →
      (frameLoop s (f :: rest)).log = (.glfwWindowShouldClose, none) :: (frame s f).log) ∧
    ((frame s f).value = some () →
      (frameLoop s (f :: rest)).log
        = (.glfwWindowShouldClose, none) :: ((frame s f).log ++ (frameLoop s rest).log)) := by
  constructor
  · intro hv
    simp [frameLoop, bind, Run.bind, issue, hv]
  · intro hv
    simp [frameLoop, bind, Run.bind, issue, hv]

theorem acquireSemaphores_append (l1 l2 : List Event) :
    acquireSemaphores (l1 ++ l2) = acquireSemaphores l1 ++ acquireSemaphores l2 := by
  simp [acquireSemaphores, List.filterMap_append]

theorem clearTargets_append (l1 l2 : List Event) :
    clearTargets (l1 ++ l2) = clearTargets l1 ++ clearTargets l2 := by
  simp [clearTargets, List.filterMap_append]

theorem submissions_append (l1 l2 : List Event) :
    submissions (l1 ++ l2) = submissions l1 ++ submissions l2 := by
  simp [submissions, List.filterMap_append]

theorem presentations_append (l1 l2 : List Event) :
    presentations (l1 ++ l2) = presentations l1 ++ presentations l2 := by
  simp [presentations, List.filterMap_append]

theorem projections_shouldClose (l : List Event) :
    acquireSemaphores ((.glfwWindowShouldClose, none) :: l) = acquireSemaphores l ∧
    clearTargets ((.glfwWindowShouldClose, none) :: l) = clearTargets l ∧
    submissions ((.glfwWindowShouldClose, none) :: l) = submissions l ∧
    presentations ((.glfwWindowShouldClose, none) :: l) = presentations l := by
  simp [acquireSemaphores, clearTargets, submissions, presentations, List.filterMap_cons]

/-- The loop, whatever the platform answers: the calls issued follow the
frames in order, each with the wiring of the source, and a later call of an
iteration is never issued without the earlier ones. -/
theorem frameLoop_shape (s : Setup) (frames : List Frame) :
    ∃ a c sb pr : Nat, pr ≤ sb ∧ sb ≤ c ∧ c ≤ a ∧ a ≤ frames.length ∧
      acquireSemaphores (frameLoop s frames).log
        = (frames.take a).map (fun _ => s.acqSemaphore) ∧
      clearTargets (frameLoop s frames).log
        = (frames.take c).map (fun f => s.swapChainImages[f.imageIndex]?) ∧
      submissions (frameLoop s frames).log
        = (frames.take sb).map (fun _ =>
            (s.acqSemaphore, VK_PIPELINE_STAGE_COLOR_ATTACHMENT_OUTPUT_BIT, s.relSemaphore)) ∧
      presentations (frameLoop s frames).log
        = (frames.take pr).map (fun f => (s.relSemaphore, f.imageIndex)) := by
  induction frames with
  | nil => exact ⟨0, 0, 0, 0, by omega, by omega, by omega, by simp, rfl, rfl, rfl, rfl⟩
  | cons f rest ih =>
    obtain ⟨c, sb, pr, h1, h2, h3, fa, fc, fs, fp, hv⟩ := frame_shape s f
    obtain ⟨p1, p2, p3, p4⟩ := projections_shouldClose (frame s f).log
    obtain ⟨q1, q2, q3, q4⟩ :=
      projections_shouldClose ((frame s f).log ++ (frameLoop s rest).log)
    rcases hv with hv | ⟨hv, hc, hsb, hpr⟩
    · have hlog := (frameLoop_cons_log s f rest).1 hv
      refine ⟨1, c, sb, pr, h1, h2, h3, by simp, ?_, ?_, ?_, ?_⟩
      · rw [hlog, p1, fa]; rfl
      · rw [hlog, p2, fc]
        have : c = 0 ∨ c = 1 := by omega
        rcases this with e | e <;> simp [e]
      · rw [hlog, p3, fs]
        have : sb = 0 ∨ sb = 1 := by omega
        rcases this with e | e <;> simp [e]
      · rw [hlog, p4, fp]
        have : pr = 0 ∨ pr = 1 := by omega
        rcases this with e | e <;> simp [e]
    · obtain ⟨a', c', sb', pr', g1, g2, g3, g4, ia, ic, isb, ipr⟩ := ih
      have hlog := (frameLoop_cons_log s f rest).2 hv
      subst hc hsb hpr
      refine ⟨a' + 1, c' + 1, sb' + 1, pr' + 1, by omega, by omega, by omega,
        by simp; omega, ?_, ?_, ?_, ?_⟩
      · rw [hlog, q1, acquireSemaphores_append, fa, ia]; rfl
      · rw [hlog, q2, clearTargets_append, fc, ic]; rfl
      · rw [hlog, q3, submissions_append, fs, isb]; rfl
      · rw [hlog, q4, presentations_append, fp, ipr]; rfl

/-- C8: in every iteration, whether or not its calls succeed, each submission
issued waits on the semaphore handed to that iteration's acquire, at the
color-attachment-output stage, and signals the render-complete semaphore; each
present request issued waits on that render-complete semaphore; the cleared
image is the entry of `swapChainImages` at the index that iteration's acquire
returned and the index presented is that same index; a present is never issued
without its submission, nor a submission without its acquire.  When all calls
succeed there is one of each per iteration. -/
theorem frame_wiring (s : Setup) (frames : List Frame) :
    (∃ a c sb pr : Nat, pr ≤ sb ∧ sb ≤ c ∧ c ≤ a ∧ a ≤ frames.length ∧
      acquireSemaphores (frameLoop s frames).log
        = (frames.take a).map (fun _ => s.acqSemaphore) ∧
      clearTargets (frameLoop s frames).log
        = (frames.take c).map (fun f => s.swapChainImages[f.imageIndex]?) ∧
      submissions (frameLoop s frames).log
        = (frames.take sb).map (fun _ =>
            (s.acqSemaphore, VK_PIPELINE_STAGE_COLOR_ATTACHMENT_OUTPUT_BIT, s.relSemaphore)) ∧
      presentations (frameLoop s frames).log
        = (frames.take pr).map (fun f => (s.relSemaphore, f.imageIndex))) ∧
    (submissions (frameLoop s frames).log).map (fun x => x.1)
      = (acquireSemaphores (frameLoop s frames).log).take
          (submissions (frameLoop s frames).log).length ∧
    (presentations (frameLoop s frames).log).map (fun x => x.1)
      = ((submissions (frameLoop s frames).log).map (fun x => x.2.2)).take
          (presentations (frameLoop s frames).log).length ∧
    ((∀ f ∈ frames, f.succeeds) →
      acquireSemaphores (frameLoop s frames).log = frames.map (fun _ => s.acqSemaphore) ∧
      submissions (frameLoop s frames).log
        = frames.map (fun _ =>
            (s.acqSemaphore, VK_PIPELINE_STAGE_COLOR_ATTACHMENT_OUTPUT_BIT, s.relSemaphore)) ∧
      presentations (frameLoop s frames).log
        = frames.map (fun f => (s.relSemaphore, f.imageIndex)) ∧
      clearTargets (frameLoop s frames).log
        = frames.map (fun f => s.swapChainImages[f.imageIndex]?) ∧
      (submissions (frameLoop s frames).log).map (fun x => x.1)
        = acquireSemaphores (frameLoop s frames).log ∧
      (presentations (frameLoop s frames).log).map (fun x => x.1)
        = (submissions (frameLoop s frames).log).map (fun x => x.2.2)) := by
  have hshape := frameLoop_shape s frames
  refine ⟨hshape, ?_, ?_, ?_⟩
  · obtain ⟨a, c, sb, pr, h1, h2, h3, h4, ea, _, es, _⟩ := hshape
    rw [es, ea]
    simp only [List.map_map, List.length_map, List.length_take, ← List.map_take, List.take_take]
    have : min (min sb frames.length) a = min sb frames.length := by omega
    rw [this]
    have e2 : List.take (min sb frames.length) frames = List.take sb frames := by
      rw [List.take_eq_take]; omega
    rw [e2]; rfl
  · obtain ⟨a, c, sb, pr, h1, h2, h3, h4, _, _, es, ep⟩ := hshape
    rw [es, ep]
    simp only [List.map_map, List.length_map, List.length_take, ← List.map_take, List.take_take]
    have : min (min pr frames.length) sb = min pr frames.length := by omega
    rw [this]
    have e2 : List.take (min pr frames.length) frames = List.take pr frames := by
      rw [List.take_eq_take]; omega
    rw [e2]; rfl
  · intro hok
    obtain ⟨k1, k2, k3, k4⟩ := frameLoop_wiring_of_succeeds s frames hok
    refine ⟨k1, k2, k3, k4, ?_, ?_⟩
    · rw [k1, k2, List.map_map]; rfl
    · rw [k2, k3, List.map_map, List.map_map]; rfl

/-- On `scenarioA` both iterations are wired as the source wires them; on
`presentFails`, whose second present request reports an error, the second
submission and present are issued all the same and are wired the same way. -/
theorem frame_wiring_witness :
    (submissions (frameLoop scenarioASetup scenarioA.frames).log
      = [(11, VK_PIPELINE_STAGE_COLOR_ATTACHMENT_OUTPUT_BIT, 12),
         (11, VK_PIPELINE_STAGE_COLOR_ATTACHMENT_OUTPUT_BIT, 12)] ∧
     presentations (frameLoop scenarioASetup scenarioA.frames).log = [(12, 0), (12, 1)] ∧
     clearTargets (frameLoop scenarioASetup scenarioA.frames).log = [some 1000, some 1001]) ∧
    (submissions (frameLoop scenarioASetup presentFails).log).map (fun x => x.1)
      = (acquireSemaphores (frameLoop scenarioASetup presentFails).log).take
          (submissions (frameLoop scenarioASetup presentFails).log).length :=
  ⟨⟨((frame_wiring scenarioASetup scenarioA.frames).2.2.2 (by decide)).2.1,
    ((frame_wiring scenarioASetup scenarioA.frames).2.2.2 (by decide)).2.2.1,
    ((frame_wiring scenarioASetup scenarioA.frames).2.2.2 (by decide)).2.2.2.1⟩,
   (frame_wiring scenarioASetup presentFails).2.1⟩

/-- The run on `presentFails`: the loop stops at the failed present of the
second iteration, after issuing both submissions and both present requests
with the semaphores in the order of the source. -/
theorem frameLoop_presentFails :
    (frameLoop scenarioASetup presentFails).value = none ∧
    acquireSemaphores (frameLoop scenarioASetup presentFails).log = [11, 11] ∧
    submissions (frameLoop scenarioASetup presentFails).log
      = [(11, VK_PIPELINE_STAGE_COLOR_ATTACHMENT_OUTPUT_BIT, 12),
         (11, VK_PIPELINE_STAGE_COLOR_ATTACHMENT_OUTPUT_BIT, 12)] ∧
    presentations (frameLoop scenarioASetup presentFails).log = [(12, 1), (12, 2)] ∧
    clearTargets (frameLoop scenarioASetup presentFails).log = [some 1001, some 1002] := by
  decide

/-! ## Guards that `main` does apply -/

/-- A failed `VK_CHECK` ends the run at that call. -/
theorem VK_CHECK_failure_stops {β : Type} (c : Call) (r : VkResult) (k : Unit → Run β)
    (h : r ≠ VK_SUCCESS) : (VK_CHECK c r >>= k) = ⟨[(c, some r)], none⟩ := by
  show Run.bind (VK_CHECK c r) k = _
  simp [Run.bind, VK_CHECK, h]

/-- A call made without `VK_CHECK` is followed by the rest of the program
whatever it reports. -/
theorem unchecked_continues {β : Type} (c : Call) (r : VkResult) (k : Unit → Run β) :
    (unchecked c r >>= k) = ⟨(c, some r) :: (k ()).log, (k ()).value⟩ := by
  show Run.bind (unchecked c r) k = _
  simp [Run.bind, unchecked]

/-- The queue-family loop returns the index of the first family with the
graphics bit when there is one. -/
theorem graphicsQueueIdFrom_first (i : Nat) (pre post : List VkQueueFamilyProperties)
    (q : VkQueueFamilyProperties)
    (hpre : ∀ x ∈ pre, x.queueFlags &&& VK_QUEUE_GRAPHICS_BIT = 0)
    (hq : q.queueFlags &&& VK_QUEUE_GRAPHICS_BIT ≠ 0) :
    graphicsQueueIdFrom i (pre ++ q :: post) = i + pre.length := by
  induction pre generalizing i with
  | nil => simp [graphicsQueueIdFrom, hq]
  | cons a t ih =>
    have ha := hpre a (by simp)
    have ht : ∀ x ∈ t, x.queueFlags &&& VK_QUEUE_GRAPHICS_BIT = 0 :=
      fun x hx => hpre x (by simp [hx])
    have hstep : graphicsQueueIdFrom i (a :: (t ++ q :: post))
        = graphicsQueueIdFrom (i + 1) (t ++ q :: post) := by
      simp [graphicsQueueIdFrom, ha]
    rw [List.cons_append, hstep, ih (i + 1) ht, List.length_cons]
    omega

/-- The queue-family loop returns 0 when no family has the graphics bit. -/
theorem graphicsQueueIdFrom_none (i : Nat) (qs : List VkQueueFamilyProperties)
    (h : ∀ x ∈ qs, x.queueFlags &&& VK_QUEUE_GRAPHICS_BIT = 0) :
    graphicsQueueIdFrom i qs = 0 := by
  induction qs generalizing i with
  | nil => rfl
  | cons a t ih =>
    have ha := h a (by simp)
    have hstep : graphicsQueueIdFrom i (a :: t) = graphicsQueueIdFrom (i + 1) t := by
      simp [graphicsQueueIdFrom, ha]
    rw [hstep]
    exact ih (i + 1) (fun x hx => h x (by simp [hx]))

theorem bind_value_some {α β : Type} (r : Run α) (f : α → Run β) (b : β) :
    (r >>= f).value = some b ↔ ∃ a, r.value = some a ∧ (f a).value = some b := by
  show (Run.bind r f).value = some b ↔ _
  unfold Run.bind
  cases h : r.value with
  | none => simp
  | some a => simp

theorem pure_value_some {α : Type} (a b : α) : (pure a : Run α).value = some b ↔ a = b := by
  show (Run.pure a).value = some b ↔ _
  simp [Run.pure]

theorem assert_value (c : Bool) (u : Unit) : (assert c).value = some u ↔ c = true := by
  unfold assert; cases c <;> simp

theorem VK_CHECK_value (c : Call) (r : VkResult) (u : Unit) :
    (VK_CHECK c r).value = some u ↔ r = VK_SUCCESS := by
  unfold VK_CHECK
  by_cases h : r = VK_SUCCESS <;> simp [h]

theorem enumerateInto_success {α : Type} (status : VkResult) (available : List α) (capacity : Nat)
    (h : (enumerateInto status available capacity).1 = VK_SUCCESS) :
    (enumerateInto status available capacity).2 = available ∧ available.length ≤ capacity := by
  unfold enumerateInto at h ⊢
  by_cases h1 : status = VK_SUCCESS
  · by_cases h2 : capacity < available.length
    · rw [if_neg (not_not.mpr h1), if_pos h2] at h
      exact absurd h (by simp [VK_INCOMPLETE, VK_SUCCESS])
    · rw [if_neg (not_not.mpr h1), if_neg h2]
      exact ⟨rfl, by omega⟩
  · rw [if_pos h1] at h
    exact absurd h h1

theorem createImageViews_length (p : Platform) (images views : List Nat)
    (h : (createImageViews p images).value = some views) : views.length = images.length := by
  induction images generalizing views with
  | nil =>
    have : views = [] := by
      have h' : (Run.pure ([] : List Nat)).value = some views := h
      simpa [Run.pure] using h'.symm
    rw [this]
  | cons image rest ih =>
    unfold createImageViews at h
    simp only [bind_value_some, VK_CHECK_value, pure_value_some] at h
    obtain ⟨_, _, vs, hvs, hv⟩ := h
    rw [← hv, List.length_cons, List.length_cons, ih vs hvs]

/-- What a completed setup guarantees: the guards that exist in `main`. -/
theorem setup_guards (p : Platform) (s : Setup) (h : (setup p).value = some s) :
    s.physicalDevices.length ≤ physicalDevicesSize ∧
    s.physicalDevice ≠ VK_NULL_HANDLE ∧
    s.queueProps = p.queueFamilies s.physicalDevice ∧
    s.graphicsQueueId = graphicsQueueId s.queueProps ∧
    s.presentSupport = p.presentSupport s.physicalDevice s.graphicsQueueId ∧
    s.presentSupport ≠ 0 ∧
    0 < s.formats.length ∧ s.formats.length < formatsSize ∧
    0 < s.presentModes.length ∧ s.presentModes.length < presentModesSize ∧
    chosenFormat s.formats = some s.chosenFormat ∧
    chosenMode s.presentModes = some s.chosenMode ∧
    s.createInfo = swapchainCreateInfo p.surface s.caps s.chosenFormat s.chosenMode ∧
    s.swapChainImages = p.swapchainImages s.createInfo ∧
    s.swapChainImages.length ≤ s.createInfo.minImageCount ∧
    s.swapChainImageViews.length = s.swapChainImages.length := by
  unfold setup at h
  simp only [bind_value_some, assert_value, VK_CHECK_value] at h
  obtain ⟨_, _, _, _, _, _, _, _, _, _, _, _, _, _, _, hwin, _, hsurf, _, henum, dev, hdev, _, hnull,
    _, _, _, _, _, hcreate, _, _, _, _, _, hpresent, _, _, _, _, _, hfmt, _, _, _, _, _, hmode,
    _, _, h⟩ := h
  have he := enumerateInto_success _ _ _ henum
  cases hcf : chosenFormat (p.formats dev) with
  | none => simp [hcf] at h
  | some cf =>
    cases hcm : chosenMode (p.presentModes dev) with
    | none => simp [hcf, hcm] at h
    | some cm =>
      simp only [hcf, hcm, bind_value_some, VK_CHECK_value, pure_value_some] at h
      obtain ⟨_, _, _, himgs, views, hviews, _, _, _, _, _, _, _, _, hs⟩ := h
      have hi := enumerateInto_success _ _ _ himgs
      have hv := createImageViews_length _ _ _ hviews
      subst hs
      simp only [Bool.and_eq_true, bne_iff_ne, decide_eq_true_eq, ne_eq] at hfmt hmode hnull hpresent
      refine ⟨?_, hnull, rfl, rfl, rfl, hpresent, Nat.pos_of_ne_zero hfmt.1, hfmt.2,
        Nat.pos_of_ne_zero hmode.1, hmode.2, hcf, hcm,
        rfl, ?_, ?_, hv⟩
      · simp only [he.1]; exact he.2
      · simp only [hi.1]
      · simp only [hi.1]; exact hi.2


/-! ## Runs that depart from the specification -/

/-- C5 at a device whose only queue family lacks the graphics bit but can
present: the loop of lines 155-161 leaves `graphicsQueueId` at its initial 0,
the present check passes for family 0, and setup goes on to create the
swapchain and reaches the frame loop with a family that is not
graphics-capable. -/
theorem setup_proceeds_without_graphics_family :
    (∀ q ∈ computeOnlyPlatform.queueFamilies 101, q.queueFlags &&& VK_QUEUE_GRAPHICS_BIT = 0) ∧
    (setup computeOnlyPlatform).value.map (fun s => s.graphicsQueueId) = some 0 ∧
    (setup computeOnlyPlatform).value.map (fun s => s.queueProps[s.graphicsQueueId]?)
      = some (some { queueFlags := VK_QUEUE_COMPUTE_BIT ||| VK_QUEUE_TRANSFER_BIT }) ∧
    createsSwapchain (setup computeOnlyPlatform).log = true := by
  decide

/-- C9 at a platform whose surface-capabilities query reports
`VK_ERROR_OUT_OF_HOST_MEMORY`: the result is dropped, the thirteen setup calls
after it are issued all the same, among them `vkCreateSwapchainKHR`, setup
completes and `main` runs to its end. -/
theorem capabilities_failure_ignored :
    (setup capsQueryFails).log[18]?
      = some (.vkGetPhysicalDeviceSurfaceCapabilitiesKHR 101, some VK_ERROR_OUT_OF_HOST_MEMORY) ∧
    VK_ERROR_OUT_OF_HOST_MEMORY ≠ VK_SUCCESS ∧
    (setup capsQueryFails).log[19]?
      = some (.vkGetPhysicalDeviceSurfaceFormatsKHR 101, some VK_SUCCESS) ∧
    ((setup capsQueryFails).log.drop 19).length = 13 ∧
    createsSwapchain ((setup capsQueryFails).log.drop 19) = true ∧
    (setup capsQueryFails).value.isSome = true ∧
    (main capsQueryFails).value = some () := by
  decide

/-- C10 at a device reporting nine queue families, and at a surface that
needs nine images: setup succeeds although nine entries are written into
`queueProps[8]`, respectively into `swapChainImages[8]` and
`swapChainImageViews[8]`, and the frame then uses index 8 into the image
array. -/
theorem fixed_arrays_overrun :
    (setup nineQueueFamilies).value.map (fun s => s.queueProps.length) = some 9 ∧
    queuePropsSize = 8 ∧
    (setup nineSwapchainImages).value.map (fun s => s.swapChainImages.length) = some 9 ∧
    (setup nineSwapchainImages).value.map (fun s => s.swapChainImageViews.length) = some 9 ∧
    swapChainImagesSize = 8 ∧
    presentations (main nineSwapchainImages).log = [(12, 8)] ∧
    (main nineSwapchainImages).value = some () := by
  decide

end TinyRT
